import Mathlib

/-!
Shallow embedding of `src/client/common/application/webPanels/webPanel.ts`.

The `WebPanel` class wraps a host-provided webview panel.  We model:
  * the host panel as an explicit record (`PanelState`) holding the webview,
    its html, title, visibility, activity and view column;
  * the wrapper object as a record (`WebPanel`) with the nullable panel
    reference, the resolution state of the single `loadPromise`, whether the
    `onDidDispose` handler has been registered, and the constructor arguments;
  * the file system (`fs.pathExists`) as a boolean predicate on paths;
  * every observable interaction with the host (html assignment, reveal,
    dispose, postMessage, handler registration, listener calls) as an event,
    so that each method returns the updated wrapper together with the list of
    host events it performs, in order.

JavaScript strings are modelled as Lean `String`; `Uri.file` and
`webview.asWebviewUri` are modelled as an opaque path-to-uri function carried
by the `Webview` record.  JS template literals become explicit string
concatenations of the literal chunks (braces and apostrophes are written with
escape codes) and the interpolated expressions.
-/

namespace WebPanels

/-- Host webview handle: we only need its uri-translation function
(`asWebviewUri`), supplied by the host. -/
structure Webview where
  asWebviewUri : String → String

/-- A `WebPanelMessage` is a tagged payload relayed verbatim
(from `common/application/types`; only the shape matters here). -/
structure WebPanelMessage where
  type : String
  payload : String
deriving DecidableEq

/-- The caller-supplied options record (`IWebPanelOptions`).  The `listener`
object it carries is host-callback glue; calls into it are modelled as events
rather than as a stored function. -/
structure IWebPanelOptions where
  title : String
  viewColumn : Nat
  rootPath : String
  scripts : List String
  cwd : String
  startHttpServer : Bool

/-- The file-existence oracle modelling `fs.pathExists`. -/
def FileSystem : Type := String → Bool

/-- Constant `RemappedPort = 9890` from the source. -/
def RemappedPort : Nat := 9890

/-- Modelled from the spec: `Identifiers.GeneratedThemeName` comes from
`datascience/constants`, which is not under `src/`; the spec leaves theme
identifiers out of scope, so it is modelled as an opaque fixed string whose
value no claim depends on. -/
def GeneratedThemeName : String := "vscode-generated-theme"

/-- Modelled from the spec: `localize.DataScience.badWebPanelFormatString()`
is a localization string not under `src/`; the spec only requires a format
string with one placeholder that yields the panel error text. -/
def badWebPanelFormatString : String :=
  "<html><body><h1>\x7b0\x7d is not a valid file name</h1></body></html>"

/-- Substitute `arg` for every occurrence of the placeholder characters
(brace, zero, brace) in a character list. -/
def substPlaceholder (arg : List Char) : List Char → List Char
  | '\x7b' :: '0' :: '\x7d' :: rest => arg ++ substPlaceholder arg rest
  | c :: rest => c :: substPlaceholder arg rest
  | [] => []

/-- Modelled from the spec: `String.prototype.format` from
`common/extensions.ts` (not under `src/`) substitutes the argument for the
numbered placeholder in the format string. -/
def formatString (fmt arg : String) : String :=
  String.mk (substPlaceholder arg.data fmt.data)

/-- JS `String.prototype.toLowerCase`, modelled per character. -/
def jsToLowerCase (s : String) : String :=
  String.mk (s.data.map Char.toLower)

/-- JS `String.prototype.replace` with a single-character string pattern:
only the first occurrence of `c` is replaced by `rep`. -/
def jsReplaceFirst (c : Char) (rep : List Char) : List Char → List Char
  | [] => []
  | x :: xs => if x = c then rep ++ xs else x :: jsReplaceFirst c rep xs

/-- JS `String.prototype.substr(start)`: the suffix from index `start`
(modelled over characters). -/
def jsSubstr (s : String) (start : Nat) : String :=
  String.mk (s.data.drop start)

/-- JS template interpolation of a possibly-undefined string value:
an undefined value prints as the text undefined. -/
def jsInterpolateOpt (o : Option String) : String :=
  match o with
  | some s => s
  | none => "undefined"

/-- JS truthiness of a possibly-undefined number (`0` and `undefined` are
falsy). -/
def jsTruthyNat (o : Option Nat) : Bool :=
  match o with
  | some n => n != 0
  | none => false

/-- Hexadecimal digit characters. -/
def hexDigits : List Char := "0123456789ABCDEF".data

/-- UTF-8 bytes of a character, as natural numbers. -/
def utf8Bytes (c : Char) : List Nat :=
  let n := c.toNat
  if n < 0x80 then [n]
  else if n < 0x800 then
    [0xC0 ||| (n >>> 6), 0x80 ||| (n &&& 0x3F)]
  else if n < 0x10000 then
    [0xE0 ||| (n >>> 12), 0x80 ||| ((n >>> 6) &&& 0x3F), 0x80 ||| (n &&& 0x3F)]
  else
    [0xF0 ||| (n >>> 18), 0x80 ||| ((n >>> 12) &&& 0x3F),
     0x80 ||| ((n >>> 6) &&& 0x3F), 0x80 ||| (n &&& 0x3F)]

/-- Characters left unescaped by JS `encodeURIComponent`. -/
def isURIUnreserved (c : Char) : Bool :=
  c.isAlpha || c.isDigit || c = '-' || c = '_' || c = '.' || c = '!' ||
  c = '~' || c = '*' || c = '\x27' || c = '(' || c = ')'

/-- JS `encodeURIComponent`: percent-encode every character outside the
unreserved set, byte by byte of its UTF-8 encoding. -/
def encodeURIComponent (s : String) : String :=
  String.mk (s.data.flatMap fun c =>
    if isURIUnreserved c then [c]
    else (utf8Bytes c).flatMap fun b =>
      ['%', hexDigits.getD (b / 16) '0', hexDigits.getD (b % 16) '0'])

/-- Host events: every externally observable call the wrapper performs,
in program order. -/
inductive HostEvent where
  | checkScripts (scripts : List String)
  | setHtml (html : String)
  | registerDisposeHandler
  | registerMessageHandler
  | registerViewStateHandler
  | notifyChangeViewState
  | reveal (viewColumn : Option Nat) (preserveFocus : Bool)
  | disposePanel
  | post (message : WebPanelMessage)
  | disposeListener
deriving DecidableEq

/-- The host panel object, as far as the wrapper observes it. -/
structure PanelState where
  webview : Webview
  html : String
  title : String
  visible : Bool
  active : Bool
  viewColumn : Option Nat

/-- The `WebPanel` wrapper object: the nullable host-panel reference, whether
the single `loadPromise` has resolved, whether the success branch of `load`
registered the `onDidDispose` handler, and the constructor arguments. -/
structure WebPanel where
  panel : Option PanelState
  loaded : Bool
  disposeHandlerRegistered : Bool
  id : String
  port : Option Nat
  token : Option String
  options : IWebPanelOptions

/-- The argument record passed to `window.createWebviewPanel` in the
constructor. -/
structure CreateWebviewPanelArgs where
  viewType : String
  title : String
  viewColumn : Nat
  preserveFocus : Bool
  enableScripts : Bool
  retainContextWhenHidden : Bool
  localResourceRoots : List String
  portMapping : Option (Nat × Nat)

/-- The arguments of the `window.createWebviewPanel` call:
`options.title.toLowerCase().replace(' ', '')` as view type (JS `replace`
with a string pattern replaces only the first occurrence), the title, the
view column with `preserveFocus: true`, and the webview options, where
`portMapping` is set only when `port` is truthy. -/
def createWebviewPanelArgs (port : Option Nat) (options : IWebPanelOptions) :
    CreateWebviewPanelArgs :=
  { viewType := String.mk (jsReplaceFirst ' ' [] (jsToLowerCase options.title).data)
    title := options.title
    viewColumn := options.viewColumn
    preserveFocus := true
    enableScripts := true
    retainContextWhenHidden := true
    localResourceRoots := [options.rootPath]
    portMapping :=
      if jsTruthyNat port then port.map fun p => (RemappedPort, p) else none }

/-- Constructor: the host creates the panel (its webview, initial visibility
and activity are host-supplied), the panel reference is stored, and the load
promise is created in the pending state (`loaded := false`). -/
def WebPanel.create (port : Option Nat) (token : Option String)
    (options : IWebPanelOptions) (id : String) (webview : Webview)
    (visible active : Bool) : WebPanel :=
  { panel := some
      { webview := webview
        html := ""
        title := options.title
        visible := visible
        active := active
        viewColumn := some options.viewColumn }
    loaded := false
    disposeHandlerRegistered := false
    id := id
    port := port
    token := token
    options := options }

/-- Literal chunk of the local template up to the theme interpolation. -/
def localHtmlChunk1 : String := "<!doctype html>\n        <html lang=\"en\">\n            <head>\n                <meta charset=\"utf-8\">\n                <meta name=\"viewport\" content=\"width=device-width,initial-scale=1,shrink-to-fit=no\">\n                <meta http-equiv=\"Content-Security-Policy\" content=\"img-src \x27self\x27 data: https: http: blob:; default-src \x27unsafe-inline\x27 \x27unsafe-eval\x27 vscode-resource: data: https: http:;\">\n                <meta name=\"theme-color\" content=\"#000000\">\n                <meta name=\"theme\" content=\""

/-- Literal chunk of both templates between the theme and the base href. -/
def htmlChunkTitleBase : String := "\"/>\n                <title>React App</title>\n                <base href=\""

/-- Literal chunk of the local template between the base href and the first
uriBase use inside resolvePath. -/
def localHtmlChunk3 : String := "\"/>\n            </head>\n            <body>\n                <noscript>You need to enable JavaScript to run this app.</noscript>\n                <div id=\"root\"></div>\n                <script type=\"text/javascript\">\n                    function resolvePath(relativePath) \x7b\n                        if (relativePath && relativePath[0] == \x27.\x27 && relativePath[1] != \x27.\x27) \x7b\n                            return \""

/-- Literal chunk of the local template between the two resolvePath returns. -/
def localHtmlChunk4 : String := "\" + relativePath.substring(1);\n                        \x7d\n\n                        return \""

/-- Literal chunk of the local template after the last uriBase use, up to the
script-tag list. -/
def localHtmlChunk5 : String := "\" + relativePath;\n                    \x7d\n                </script>\n                "

/-- Closing literal chunk of both templates. -/
def htmlChunkClose : String := "\n            </body>\n        </html>"

/-- One generated script tag of the local template. -/
def scriptTag (uri : String) : String :=
  "<script type=\"text/javascript\" src=\"" ++ uri ++ "\"></script>"

/-- Model of `generateLocalReactHtml`: the local-resource HTML variant.  All paths are
translated to webview resource URIs via `asWebviewUri`. -/
def generateLocalReactHtml (webView : Webview) (options : IWebPanelOptions) :
    String :=
  let uriBase := webView.asWebviewUri options.rootPath
  let uris := options.scripts.map fun script => webView.asWebviewUri script
  localHtmlChunk1 ++ GeneratedThemeName ++ htmlChunkTitleBase ++ uriBase ++
  localHtmlChunk3 ++ uriBase ++ localHtmlChunk4 ++ uriBase ++ localHtmlChunk5 ++
  String.intercalate "\n" (uris.map scriptTag) ++ htmlChunkClose

/-- Literal chunk of the server template between the base href and the
loopback URL inside the iframe src attribute. -/
def serverHtmlChunk3 : String := "\"/>\n            </head>\n            <body>\n                <script type=\"text/javascript\">\n                    const vscodeApi = acquireVsCodeApi ? acquireVsCodeApi() : undefined;\n                    window.addEventListener(\x27message\x27, (ev) => \x7b\n                        const isFromFrame = ev.data && ev.data.command === \x27onmessage\x27;\n                        if (isFromFrame && vscodeApi) \x7b\n                            window.console.log(\x27posting to vscode\x27);\n                            window.console.log(JSON.stringify(ev.data.data));\n                            vscodeApi.postMessage(ev.data.data);\n                        \x7d else if (!isFromFrame) \x7b\n                            window.console.log(\x27posting to frame\x27);\n                            window.console.log(ev.data.type);\n                            const hostFrame = document.getElementById(\x27hostframe\x27);\n                            if (hostFrame) \x7b\n                                hostFrame.contentWindow.postMessage(ev.data, \x27*\x27);\n                            \x7d\n                        \x7d\n                    \x7d);\n                    //# sourceURL=listener.js\n                </script>\n                <iframe id=\x27hostframe\x27 src=\""

/-- Literal chunk of the server template after the token interpolation. -/
def serverHtmlChunk4 : String := "\" frameborder=\"0\" style=\"left: 0px; display: block; margin: 0px; overflow: hidden; position: absolute; width: 100%; height: 100%; visibility: visible;\"/>\n            </body>\n        </html>"

/-- The encoded script list of `generateServerReactHtml`: scripts made relative to
the root path (JS `substr` on the root path length), backslashes turned into
slashes, then URI-encoded. -/
def encodedScripts (options : IWebPanelOptions) : List String :=
  let relativeScripts :=
    options.scripts.map fun s => "." ++ jsSubstr s options.rootPath.data.length
  relativeScripts.map fun s =>
    encodeURIComponent (String.mk (s.data.map fun c => if c = '\\' then '/' else c))

/-- Model of `generateServerReactHtml`: the serve-mode HTML variant, whose body is an
iframe pointing at the loopback server on the remapped port, with the panel
id as the path segment and the encoded scripts, cwd, root path and token as
query parameters. -/
def generateServerReactHtml (webView : Webview) (id : String)
    (token : Option String) (options : IWebPanelOptions) : String :=
  let uriBase := webView.asWebviewUri options.rootPath
  localHtmlChunk1 ++ GeneratedThemeName ++ htmlChunkTitleBase ++ uriBase ++
  serverHtmlChunk3 ++ "http://localhost:" ++ toString RemappedPort ++ "/" ++
  id ++ "?scripts=" ++ String.intercalate "%" (encodedScripts options) ++
  "&cwd=" ++ options.cwd ++ "&rootPath=" ++ options.rootPath ++
  "&token=" ++ jsInterpolateOpt token ++ serverHtmlChunk4

/-- Everything of the server HTML strictly before the loopback URL. -/
def serverHtmlPre (webView : Webview) (options : IWebPanelOptions) : String :=
  localHtmlChunk1 ++ GeneratedThemeName ++ htmlChunkTitleBase ++
  webView.asWebviewUri options.rootPath ++ serverHtmlChunk3

/-- Everything of the server HTML strictly after the panel id: the query
string and the closing markup. -/
def serverHtmlQuery (token : Option String) (options : IWebPanelOptions) :
    String :=
  "?scripts=" ++ String.intercalate "%" (encodedScripts options) ++
  "&cwd=" ++ options.cwd ++ "&rootPath=" ++ options.rootPath ++
  "&token=" ++ jsInterpolateOpt token ++ serverHtmlChunk4

/-- The body of the private async `load` method, run when the load promise is
resolved.  If the panel reference is present, the existence of every script
path is checked; when all exist the HTML variant selected by
`startHttpServer` is assigned and the dispose/message/view-state handlers are
registered, then the listener is notified of the initial view state; when at
least one is missing the formatted bad-panel string is assigned instead (and
nothing is registered).  The function is total: no exception can escape. -/
def load (fs : FileSystem) (p : WebPanel) : WebPanel × List HostEvent :=
  match p.panel with
  | none => (p, [])
  | some pan =>
    let localFilesExist := p.options.scripts.map fs
    if localFilesExist.all fun b => b == true then
      let html :=
        if p.options.startHttpServer then
          generateServerReactHtml pan.webview p.id p.token p.options
        else
          generateLocalReactHtml pan.webview p.options
      ({ p with panel := some { pan with html := html }
                disposeHandlerRegistered := true },
       [HostEvent.checkScripts p.options.scripts, HostEvent.setHtml html,
        HostEvent.registerDisposeHandler, HostEvent.registerMessageHandler,
        HostEvent.registerViewStateHandler, HostEvent.notifyChangeViewState])
    else
      let badPanelString := badWebPanelFormatString
      let html :=
        formatString badPanelString (String.intercalate ", " p.options.scripts)
      ({ p with panel := some { pan with html := html } },
       [HostEvent.checkScripts p.options.scripts, HostEvent.setHtml html])

/-- Resolution of the single `loadPromise` created in the constructor:
a no-op once resolved, otherwise it runs the load body exactly once. -/
def resolveLoad (fs : FileSystem) (p : WebPanel) : WebPanel × List HostEvent :=
  if p.loaded then (p, [])
  else
    let r := load fs p
    ({ r.1 with loaded := true }, r.2)

/-- Model of `show(preserveFocus)` (named `showPanel` because `show` is a
Lean keyword): awaits the load promise (forcing its resolution if
still pending), then reveals the panel if the reference is still present. -/
def showPanel (fs : FileSystem) (p : WebPanel) (preserveFocus : Bool) :
    WebPanel × List HostEvent :=
  let r := resolveLoad fs p
  match r.1.panel with
  | some pan => (r.1, r.2 ++ [HostEvent.reveal pan.viewColumn preserveFocus])
  | none => r

/-- Model of `updateCwd(_cwd)`: the body contains only an empty guarded block (a TODO
comment), so nothing happens in either case. -/
def updateCwd (p : WebPanel) (_cwd : String) : WebPanel × List HostEvent :=
  if p.options.startHttpServer && jsTruthyNat p.port then (p, []) else (p, [])

/-- Model of `close()`: disposes the host panel when the reference is present. -/
def close (p : WebPanel) : WebPanel × List HostEvent :=
  match p.panel with
  | some _ => (p, [HostEvent.disposePanel])
  | none => (p, [])

/-- Model of `isVisible()`. -/
def isVisible (p : WebPanel) : Bool :=
  match p.panel with
  | some pan => pan.visible
  | none => false

/-- Model of `isActive()`. -/
def isActive (p : WebPanel) : Bool :=
  match p.panel with
  | some pan => pan.active
  | none => false

/-- Model of `postMessage(message)`: posts to the webview when the panel reference
(and hence its webview) is present. -/
def postMessage (p : WebPanel) (message : WebPanelMessage) :
    WebPanel × List HostEvent :=
  match p.panel with
  | some _ => (p, [HostEvent.post message])
  | none => (p, [])

/-- The `title` getter. -/
def titleGet (p : WebPanel) : String :=
  match p.panel with
  | some pan => pan.title
  | none => ""

/-- The `title` setter. -/
def setTitle (p : WebPanel) (newTitle : String) : WebPanel :=
  match p.panel with
  | some pan => { p with panel := some { pan with title := newTitle } }
  | none => p

/-- The host fires `onDidDispose`.  The handler registered by the success
branch of `load` clears the panel reference and disposes the caller-supplied
listener; if the handler was never registered the wrapper observes nothing. -/
def hostDispose (p : WebPanel) : WebPanel × List HostEvent :=
  if p.disposeHandlerRegistered then
    ({ p with panel := none }, [HostEvent.disposeListener])
  else (p, [])

/-- The html currently assigned to the panel's webview, if the panel
reference is present. -/
def panelHtml (p : WebPanel) : Option String :=
  p.panel.map fun pan => pan.html

/-- The public operations and scheduler events that can hit a constructed
panel, for whole-execution statements. -/
inductive Op where
  | showOp (preserveFocus : Bool)
  | resolveLoadOp
  | closeOp
  | postMessageOp (message : WebPanelMessage)
  | updateCwdOp (cwd : String)
  | setTitleOp (newTitle : String)
  | hostDisposeOp

/-- One operation against the wrapper. -/
def step (fs : FileSystem) (p : WebPanel) : Op → WebPanel × List HostEvent
  | .showOp pf => showPanel fs p pf
  | .resolveLoadOp => resolveLoad fs p
  | .closeOp => close p
  | .postMessageOp m => postMessage p m
  | .updateCwdOp c => updateCwd p c
  | .setTitleOp t => (setTitle p t, [])
  | .hostDisposeOp => hostDispose p

/-- A whole execution: the operations in order, with the concatenated host
event trace. -/
def run (fs : FileSystem) (p : WebPanel) : List Op → WebPanel × List HostEvent
  | [] => (p, [])
  | op :: ops =>
    let r := step fs p op
    let r2 := run fs r.1 ops
    (r2.1, r.2 ++ r2.2)

/-- Events belonging to the load step: the script-existence check and the
HTML assignment. -/
def isLoadEvent : HostEvent → Bool
  | .checkScripts _ => true
  | .setHtml _ => true
  | _ => false

/-- Reveal events. -/
def isReveal : HostEvent → Bool
  | .reveal _ _ => true
  | _ => false

/-- Script-existence checks. -/
def isCheckScripts : HostEvent → Bool
  | .checkScripts _ => true
  | _ => false

/-- How many times a trace runs the script-existence check (each run of the
load body performs exactly one). -/
def checkScriptsCount (evs : List HostEvent) : Nat :=
  (evs.filter isCheckScripts).length

-- Concrete states used by the closed instances below
def wvX : Webview := { asWebviewUri := fun s => "vscode-resource:" ++ s }

def optX : IWebPanelOptions :=
  { title := "Data Science"
    viewColumn := 1
    rootPath := "/root"
    scripts := ["/root/index_bundle.js"]
    cwd := "/cwd"
    startHttpServer := false }

def fsAll : FileSystem := fun _ => true
def fsNone : FileSystem := fun _ => false

def pX : WebPanel := WebPanel.create (some 3000) (some "tok") optX "panelid" wvX true true

def panX : PanelState :=
  { webview := wvX
    html := ""
    title := optX.title
    visible := true
    active := true
    viewColumn := some optX.viewColumn }

/-- Fully resolved tail of the server HTML after its first literal chunk,
used to reason about the leading characters of the generated page. -/
def serverHtmlTail (webView : Webview) (id : String) (token : Option String)
    (options : IWebPanelOptions) : String :=
  GeneratedThemeName ++ htmlChunkTitleBase ++
  webView.asWebviewUri options.rootPath ++ serverHtmlChunk3 ++
  "http://localhost:" ++ toString RemappedPort ++ "/" ++ id ++ "?scripts=" ++
  String.intercalate "%" (encodedScripts options) ++ "&cwd=" ++
  options.cwd ++ "&rootPath=" ++ options.rootPath ++ "&token=" ++
  jsInterpolateOpt token ++ serverHtmlChunk4

/-- Concrete wrapper state after disposal: the panel reference cleared, the
load promise resolved, the dispose handler having been registered. -/
def pDisposedX : WebPanel :=
  { panel := none
    loaded := true
    disposeHandlerRegistered := true
    id := "panelid"
    port := some 3000
    token := some "tok"
    options := optX }

def optServX : IWebPanelOptions :=
  { title := "Data Science"
    viewColumn := 2
    rootPath := "/root"
    scripts := ["/root/index_bundle.js"]
    cwd := "/cwd"
    startHttpServer := true }

def pServX : WebPanel :=
  WebPanel.create (some 3000) (some "tok") optServX "panelid" wvX true true

def panServX : PanelState :=
  { webview := wvX
    html := ""
    title := optServX.title
    visible := true
    active := true
    viewColumn := some optServX.viewColumn }

def optTwoSpacesX : IWebPanelOptions :=
  { title := "My Web Panel"
    viewColumn := 1
    rootPath := "/root"
    scripts := ["/root/index_bundle.js"]
    cwd := "/cwd"
    startHttpServer := false }


theorem bad_format_eq (a : String) :
    formatString badWebPanelFormatString a =
      "<html><body><h1>" ++ (a ++ " is not a valid file name</h1></body></html>") := rfl

theorem bad_data_snd (a : String) :
    (formatString badWebPanelFormatString a).data[1]? = some 'h' := by
  rw [bad_format_eq, String.data_append]
  rfl

set_option maxRecDepth 10000 in
set_option maxHeartbeats 1000000 in
theorem chunk1_head (r : String) : (localHtmlChunk1 ++ r).data[1]? = some '!' := by
  have hlen : (1 : Nat) < localHtmlChunk1.data.length := by decide
  rw [String.data_append, List.getElem?_append_left hlen]
  decide

set_option maxRecDepth 10000 in
set_option maxHeartbeats 1000000 in
theorem local_data_snd (wv : Webview) (o : IWebPanelOptions) :
    (generateLocalReactHtml wv o).data[1]? = some '!' :=
  chunk1_head _

theorem serverHtml_eq_chunks (wv : Webview) (idv : String) (tk : Option String)
    (o : IWebPanelOptions) :
    generateServerReactHtml wv idv tk o = localHtmlChunk1 ++ serverHtmlTail wv idv tk o := by
  simp only [generateServerReactHtml, serverHtmlTail, String.append_assoc]

theorem server_data_snd (wv : Webview) (idv : String) (tk : Option String)
    (o : IWebPanelOptions) :
    (generateServerReactHtml wv idv tk o).data[1]? = some '!' := by
  rw [serverHtml_eq_chunks]
  exact chunk1_head _

theorem bad_ne_local (a : String) (wv : Webview) (o : IWebPanelOptions) :
    formatString badWebPanelFormatString a ≠ generateLocalReactHtml wv o := by
  intro h
  have h2 : (formatString badWebPanelFormatString a).data[1]? =
      (generateLocalReactHtml wv o).data[1]? := by rw [h]
  rw [bad_data_snd, local_data_snd] at h2
  simp at h2

theorem bad_ne_server (a : String) (wv : Webview) (idv : String)
    (tk : Option String) (o : IWebPanelOptions) :
    formatString badWebPanelFormatString a ≠ generateServerReactHtml wv idv tk o := by
  intro h
  have h2 : (formatString badWebPanelFormatString a).data[1]? =
      (generateServerReactHtml wv idv tk o).data[1]? := by rw [h]
  rw [bad_data_snd, server_data_snd] at h2
  simp at h2

theorem scripts_all_iff (fs : FileSystem) (scripts : List String) :
    (((scripts.map fs).all fun b => b == true) = true ↔ ∀ s ∈ scripts, fs s = true) := by
  simp [List.all_eq_true]

theorem scripts_not_all_iff (fs : FileSystem) (scripts : List String) :
    (¬ ((scripts.map fs).all fun b => b == true) = true ↔ ∃ s ∈ scripts, fs s = false) := by
  simp [List.all_eq_true]

/-- C1: the load step sets the panel HTML to the bad-panel format string
applied to the comma-joined script paths if and only if at least one declared
script path is missing on disk; when every script exists, the application
HTML (server or local variant, chosen by the serve-mode flag) is assigned
instead.  The load function is total, so no exception propagates to the
caller in the missing-file case. -/
theorem load_bad_html_iff_missing_script (fs : FileSystem) (p : WebPanel)
    (pan : PanelState) (hp : p.panel = some pan) :
    (panelHtml (load fs p).1 =
        some (formatString badWebPanelFormatString
          (String.intercalate ", " p.options.scripts))
      ↔ ∃ s ∈ p.options.scripts, fs s = false) ∧
    ((∀ s ∈ p.options.scripts, fs s = true) →
      panelHtml (load fs p).1 =
        some (if p.options.startHttpServer then
                generateServerReactHtml pan.webview p.id p.token p.options
              else generateLocalReactHtml pan.webview p.options)) := by
  by_cases hc : ((p.options.scripts.map fs).all fun b => b == true) = true
  · have hnomiss : ¬ ∃ s ∈ p.options.scripts, fs s = false := by
      rw [← scripts_not_all_iff fs p.options.scripts]
      exact fun h => h hc
    simp only [load, hp, hc, if_true, panelHtml, Option.map_some']
    refine ⟨⟨fun h => ?_, fun h => absurd h hnomiss⟩, ?_⟩
    · have h3 := Option.some.inj h
      exfalso
      by_cases hs : p.options.startHttpServer = true
      · rw [if_pos hs] at h3
        exact bad_ne_server _ _ _ _ _ h3.symm
      · rw [if_neg hs] at h3
        exact bad_ne_local _ _ _ h3.symm
    · exact fun _ => trivial
  · have hmiss : ∃ s ∈ p.options.scripts, fs s = false :=
      (scripts_not_all_iff fs p.options.scripts).mp hc
    have hcf : ((p.options.scripts.map fs).all fun b => b == true) = false := by
      rwa [Bool.not_eq_true] at hc
    simp only [load, hp, hcf, Bool.false_eq_true, if_false, panelHtml,
      Option.map_some']
    refine ⟨⟨fun _ => hmiss, fun _ => by trivial⟩, fun hall => ?_⟩
    exact absurd ((scripts_all_iff fs p.options.scripts).mpr hall) hc

/-- Witness for C1 at a concrete input whose script file is missing. -/
theorem load_bad_html_iff_missing_script_witness :
    (panelHtml (load fsNone pX).1 =
        some (formatString badWebPanelFormatString
          (String.intercalate ", " pX.options.scripts))
      ↔ ∃ s ∈ pX.options.scripts, fsNone s = false) ∧
    ((∀ s ∈ pX.options.scripts, fsNone s = true) →
      panelHtml (load fsNone pX).1 =
        some (if pX.options.startHttpServer then
                generateServerReactHtml panX.webview pX.id pX.token pX.options
              else generateLocalReactHtml panX.webview pX.options)) :=
  load_bad_html_iff_missing_script fsNone pX panX rfl

-- Shape of the load and show traces
theorem load_no_reveal (fs : FileSystem) (p : WebPanel) :
    ∀ e ∈ (load fs p).2, isReveal e = false := by
  intro e he
  cases hp : p.panel with
  | none => simp [load, hp] at he
  | some pan =>
    by_cases hc : ((p.options.scripts.map fs).all fun b => b == true) = true
    · simp only [load, hp, hc, if_true] at he
      fin_cases he <;> rfl
    · have hcf : ((p.options.scripts.map fs).all fun b => b == true) = false := by
        rwa [Bool.not_eq_true] at hc
      simp only [load, hp, hcf, Bool.false_eq_true, if_false] at he
      fin_cases he <;> rfl

theorem resolveLoad_no_reveal (fs : FileSystem) (p : WebPanel) :
    ∀ e ∈ (resolveLoad fs p).2, isReveal e = false := by
  intro e he
  unfold resolveLoad at he
  split at he
  · simp at he
  · exact load_no_reveal fs p e he

theorem showPanel_trace (fs : FileSystem) (p : WebPanel) (pf : Bool) :
    (showPanel fs p pf).2 = (resolveLoad fs p).2 ++
      (match (resolveLoad fs p).1.panel with
       | some pan => [HostEvent.reveal pan.viewColumn pf]
       | none => []) := by
  unfold showPanel
  cases hpan : (resolveLoad fs p).1.panel <;> simp [hpan]

/-- C2: in the event trace of `show(preserveFocus)`, any reveal of the host
panel occurs strictly after every load-step event (the script-existence check
and the HTML assignment): the panel is revealed only once the single
asynchronous load has settled. -/
theorem show_reveals_only_after_load (fs : FileSystem) (p : WebPanel)
    (pf : Bool) (i j : Nat) (e : HostEvent) (vc : Option Nat) (b : Bool)
    (hrev : (showPanel fs p pf).2[i]? = some (HostEvent.reveal vc b))
    (hload : (showPanel fs p pf).2[j]? = some e)
    (he : isLoadEvent e = true) : j < i := by
  rw [showPanel_trace] at hrev hload
  cases hpan : (resolveLoad fs p).1.panel with
  | none =>
    rw [hpan] at hrev
    simp only [List.append_nil] at hrev
    have hmem := List.getElem?_mem hrev
    have := resolveLoad_no_reveal fs p _ hmem
    simp [isReveal] at this
  | some pan =>
    rw [hpan] at hrev hload
    have hi : (resolveLoad fs p).2.length ≤ i := by
      by_contra hlt
      push_neg at hlt
      rw [List.getElem?_append_left hlt] at hrev
      have hmem := List.getElem?_mem hrev
      have := resolveLoad_no_reveal fs p _ hmem
      simp [isReveal] at this
    have hj : j < (resolveLoad fs p).2.length := by
      by_contra hge
      push_neg at hge
      rw [List.getElem?_append_right hge] at hload
      rcases hd : j - (resolveLoad fs p).2.length with _ | k
      · rw [hd] at hload
        have he2 : HostEvent.reveal pan.viewColumn pf = e := by
          simpa using hload
        rw [← he2] at he
        simp [isLoadEvent] at he
      · rw [hd] at hload
        simp at hload
    exact lt_of_lt_of_le hj hi

/-- Witness for C2 on a freshly constructed panel: the reveal at index 6
follows the script check at index 0. -/
theorem show_reveals_only_after_load_witness :
    (showPanel fsAll pX true).2[6]? = some (HostEvent.reveal (some 1) true) ∧
    (showPanel fsAll pX true).2[0]? =
      some (HostEvent.checkScripts ["/root/index_bundle.js"]) ∧
    (0 : Nat) < 6 :=
  ⟨rfl, rfl,
    show_reveals_only_after_load fsAll pX true 6 0
      (HostEvent.checkScripts ["/root/index_bundle.js"]) (some 1) true rfl rfl rfl⟩

/-- C3: after disposal has cleared the panel reference (the load promise
being resolved, as it is whenever the dispose handler has run), every public
operation is a no-op that never throws: show, close, postMessage, updateCwd
and the title setter leave the wrapper unchanged and perform no host call,
isVisible and isActive return false, and the title getter returns the empty
string. -/
theorem disposed_operations_noop (fs : FileSystem) (p : WebPanel)
    (pf : Bool) (m : WebPanelMessage) (cwd newTitle : String)
    (hp : p.panel = none) (hl : p.loaded = true) :
    showPanel fs p pf = (p, []) ∧
    close p = (p, []) ∧
    postMessage p m = (p, []) ∧
    updateCwd p cwd = (p, []) ∧
    setTitle p newTitle = p ∧
    titleGet p = "" ∧
    isVisible p = false ∧
    isActive p = false := by
  refine ⟨?_, ?_, ?_, ?_, ?_, ?_, ?_, ?_⟩
  · simp [showPanel, resolveLoad, hl, hp]
  · simp [close, hp]
  · simp [postMessage, hp]
  · unfold updateCwd
    split <;> rfl
  · simp [setTitle, hp]
  · simp [titleGet, hp]
  · simp [isVisible, hp]
  · simp [isActive, hp]

/-- Witness for C3 on a concrete disposed wrapper state. -/
theorem disposed_operations_noop_witness :
    showPanel fsAll pDisposedX true = (pDisposedX, []) ∧
    close pDisposedX = (pDisposedX, []) ∧
    postMessage pDisposedX { type := "t", payload := "p" } = (pDisposedX, []) ∧
    updateCwd pDisposedX "/cwd2" = (pDisposedX, []) ∧
    setTitle pDisposedX "New" = pDisposedX ∧
    titleGet pDisposedX = "" ∧
    isVisible pDisposedX = false ∧
    isActive pDisposedX = false :=
  disposed_operations_noop fsAll pDisposedX true { type := "t", payload := "p" }
    "/cwd2" "New" rfl rfl

-- Teardown and absorption lemmas
theorem resolveLoad_panel_none (fs : FileSystem) (p : WebPanel)
    (hp : p.panel = none) : (resolveLoad fs p).1.panel = none := by
  unfold resolveLoad
  split
  · exact hp
  · simp [load, hp]

theorem step_panel_none (fs : FileSystem) (p : WebPanel) (op : Op)
    (hp : p.panel = none) : (step fs p op).1.panel = none := by
  cases op with
  | showOp pf =>
    show (showPanel fs p pf).1.panel = none
    unfold showPanel
    have h1 := resolveLoad_panel_none fs p hp
    cases hpan : (resolveLoad fs p).1.panel with
    | none => simp [hpan]
    | some pan => rw [hpan] at h1; cases h1
  | resolveLoadOp => exact resolveLoad_panel_none fs p hp
  | closeOp => simp [step, close, hp]
  | postMessageOp m => simp [step, postMessage, hp]
  | updateCwdOp c =>
    show (updateCwd p c).1.panel = none
    unfold updateCwd
    split <;> exact hp
  | setTitleOp t => simp [step, setTitle, hp]
  | hostDisposeOp =>
    show (hostDispose p).1.panel = none
    unfold hostDispose
    split
    · rfl
    · exact hp

theorem run_panel_none (fs : FileSystem) (ops : List Op) (p : WebPanel)
    (hp : p.panel = none) : ((run fs p ops).1).panel = none := by
  induction ops generalizing p with
  | nil => exact hp
  | cons op ops ih => exact ih _ (step_panel_none fs p op hp)

theorem resolveLoad_success_eq (fs : FileSystem) (p : WebPanel)
    (pan : PanelState) (hl : p.loaded = false) (hp : p.panel = some pan)
    (hc : ((p.options.scripts.map fs).all fun b => b == true) = true) :
    resolveLoad fs p =
      ({ p with
          panel := some { pan with html :=
            if p.options.startHttpServer then
              generateServerReactHtml pan.webview p.id p.token p.options
            else generateLocalReactHtml pan.webview p.options }
          disposeHandlerRegistered := true
          loaded := true },
       [HostEvent.checkScripts p.options.scripts,
        HostEvent.setHtml
          (if p.options.startHttpServer then
            generateServerReactHtml pan.webview p.id p.token p.options
          else generateLocalReactHtml pan.webview p.options),
        HostEvent.registerDisposeHandler, HostEvent.registerMessageHandler,
        HostEvent.registerViewStateHandler, HostEvent.notifyChangeViewState]) := by
  simp only [resolveLoad, load, hl, hp, hc, Bool.false_eq_true, if_false,
    if_true]

theorem resolveLoad_error_eq (fs : FileSystem) (p : WebPanel)
    (pan : PanelState) (hl : p.loaded = false) (hp : p.panel = some pan)
    (hcf : ((p.options.scripts.map fs).all fun b => b == true) = false) :
    resolveLoad fs p =
      ({ p with
          panel := some { pan with
            html := formatString badWebPanelFormatString (String.intercalate ", " p.options.scripts) }
          loaded := true },
       [HostEvent.checkScripts p.options.scripts,
        HostEvent.setHtml (formatString badWebPanelFormatString
          (String.intercalate ", " p.options.scripts))]) := by
  simp only [resolveLoad, load, hl, hp, hcf, Bool.false_eq_true, if_false,
    if_true]

/-- C4 counterexample: after the missing-scripts error branch of the load
step, the host firing the dispose event leaves the panel reference set and
never disposes the listener, contradicting the claim that teardown happens
regardless of the branch taken. -/
theorem dispose_error_branch_counterexample :
    ((resolveLoad fsNone pX).1.panel.isSome = true) ∧
    hostDispose (resolveLoad fsNone pX).1 = ((resolveLoad fsNone pX).1, []) ∧
    ((hostDispose (resolveLoad fsNone pX).1).1.panel.isSome = true) :=
  ⟨rfl, rfl, rfl⟩

/-- C4 (amended): teardown on host disposal is branch-dependent.  When the
load step took the success branch, the host firing `onDidDispose` clears the
panel reference and disposes the caller-supplied listener exactly once, and
the reference stays cleared under every subsequent operation (never reused);
in the missing-scripts error branch no dispose handler is registered, so the
host report leaves the wrapper untouched: the panel reference remains set
and the listener is not disposed. -/
theorem dispose_teardown_branch_dependent (fs : FileSystem) (p : WebPanel)
    (pan : PanelState) (hl : p.loaded = false) (hp : p.panel = some pan)
    (hreg : p.disposeHandlerRegistered = false) :
    ((∀ s ∈ p.options.scripts, fs s = true) →
      (hostDispose (resolveLoad fs p).1).1.panel = none ∧
      (hostDispose (resolveLoad fs p).1).2 = [HostEvent.disposeListener] ∧
      (∀ ops, ((run fs (hostDispose (resolveLoad fs p).1).1 ops).1).panel = none)) ∧
    ((∃ s ∈ p.options.scripts, fs s = false) →
      hostDispose (resolveLoad fs p).1 = ((resolveLoad fs p).1, []) ∧
      ((resolveLoad fs p).1).panel = some { pan with
        html := formatString badWebPanelFormatString
          (String.intercalate ", " p.options.scripts) }) := by
  constructor
  · intro hall
    have hc : ((p.options.scripts.map fs).all fun b => b == true) = true :=
      (scripts_all_iff fs p.options.scripts).mpr hall
    rw [resolveLoad_success_eq fs p pan hl hp hc]
    refine ⟨rfl, rfl, fun ops => run_panel_none fs ops _ rfl⟩
  · intro hmiss
    have hcf : ((p.options.scripts.map fs).all fun b => b == true) = false := by
      have := (scripts_not_all_iff fs p.options.scripts).mpr hmiss
      rwa [Bool.not_eq_true] at this
    rw [resolveLoad_error_eq fs p pan hl hp hcf]
    constructor
    · simp [hostDispose, hreg]
    · rfl

/-- Witness for C4 (amended) on a concrete panel whose script exists. -/
theorem dispose_teardown_branch_dependent_witness :
    ((∀ s ∈ pX.options.scripts, fsAll s = true) →
      (hostDispose (resolveLoad fsAll pX).1).1.panel = none ∧
      (hostDispose (resolveLoad fsAll pX).1).2 = [HostEvent.disposeListener] ∧
      (∀ ops, ((run fsAll (hostDispose (resolveLoad fsAll pX).1).1 ops).1).panel = none)) ∧
    ((∃ s ∈ pX.options.scripts, fsAll s = false) →
      hostDispose (resolveLoad fsAll pX).1 = ((resolveLoad fsAll pX).1, []) ∧
      ((resolveLoad fsAll pX).1).panel = some { panX with
        html := formatString badWebPanelFormatString
          (String.intercalate ", " pX.options.scripts) }) :=
  dispose_teardown_branch_dependent fsAll pX panX rfl rfl rfl

/-- C5: with the panel present and every script path existing, the load step
assigns exactly one of the two HTML generators according to the serve-mode
flag: the server (loopback-iframe) HTML when `startHttpServer` is true, the
local-resource HTML when it is false. -/
theorem load_selects_generator_by_serve_mode (fs : FileSystem) (p : WebPanel)
    (pan : PanelState) (hp : p.panel = some pan)
    (hall : ((p.options.scripts.map fs).all fun b => b == true) = true) :
    panelHtml (load fs p).1 =
      some (if p.options.startHttpServer then
              generateServerReactHtml pan.webview p.id p.token p.options
            else generateLocalReactHtml pan.webview p.options) ∧
    (p.options.startHttpServer = true →
      panelHtml (load fs p).1 =
        some (generateServerReactHtml pan.webview p.id p.token p.options)) ∧
    (p.options.startHttpServer = false →
      panelHtml (load fs p).1 =
        some (generateLocalReactHtml pan.webview p.options)) := by
  have h1 : panelHtml (load fs p).1 =
      some (if p.options.startHttpServer then
              generateServerReactHtml pan.webview p.id p.token p.options
            else generateLocalReactHtml pan.webview p.options) := by
    simp only [load, hp, hall, if_true, panelHtml, Option.map_some']
  refine ⟨h1, fun hs => ?_, fun hs => ?_⟩
  · rw [h1, hs, if_pos rfl]
  · rw [h1, hs]
    simp only [Bool.false_eq_true, if_false]

/-- Witness for C5 on a concrete serve-mode panel. -/
theorem load_selects_generator_by_serve_mode_witness :
    panelHtml (load fsAll pServX).1 =
      some (if pServX.options.startHttpServer then
              generateServerReactHtml panServX.webview pServX.id pServX.token pServX.options
            else generateLocalReactHtml panServX.webview pServX.options) ∧
    (pServX.options.startHttpServer = true →
      panelHtml (load fsAll pServX).1 =
        some (generateServerReactHtml panServX.webview pServX.id pServX.token pServX.options)) ∧
    (pServX.options.startHttpServer = false →
      panelHtml (load fsAll pServX).1 =
        some (generateLocalReactHtml panServX.webview pServX.options)) :=
  load_selects_generator_by_serve_mode fsAll pServX panServX rfl rfl

/-- C6: `close()` and `postMessage(message)` proceed immediately without
awaiting the in-flight load: each performs its guarded host call (dispose,
webview post) exactly when the panel reference is present and does nothing
when it is absent, never changes the wrapper state, and performs no
load-step event. -/
theorem close_postMessage_immediate (p : WebPanel) (m : WebPanelMessage) :
    close p = (p, if p.panel.isSome then [HostEvent.disposePanel] else []) ∧
    postMessage p m = (p, if p.panel.isSome then [HostEvent.post m] else []) ∧
    (close p).2.all (fun e => !(isLoadEvent e)) = true ∧
    (postMessage p m).2.all (fun e => !(isLoadEvent e)) = true := by
  cases hp : p.panel <;>
    simp [close, postMessage, hp, isLoadEvent]

/-- C9: `updateCwd(cwd)` is observationally a no-op for every argument and
every panel state: it changes no field of the wrapper, posts no message and
makes no host call. -/
theorem updateCwd_is_noop (p : WebPanel) (cwd : String) :
    updateCwd p cwd = (p, []) := by
  unfold updateCwd
  split <;> rfl

-- Load-count lemmas
theorem updateCwd_eq (p : WebPanel) (c : String) : updateCwd p c = (p, []) := by
  unfold updateCwd
  split <;> rfl

theorem resolveLoad_loaded (fs : FileSystem) (p : WebPanel) :
    (resolveLoad fs p).1.loaded = true := by
  unfold resolveLoad
  split
  · assumption
  · rfl

theorem showPanel_loaded (fs : FileSystem) (p : WebPanel) (pf : Bool) :
    ((showPanel fs p pf).1).loaded = true := by
  unfold showPanel
  cases hpan : (resolveLoad fs p).1.panel <;>
    simp [hpan, resolveLoad_loaded]

theorem close_fst (p : WebPanel) : (close p).1 = p := by
  unfold close
  split <;> rfl

theorem postMessage_fst (p : WebPanel) (m : WebPanelMessage) :
    (postMessage p m).1 = p := by
  unfold postMessage
  split <;> rfl

theorem step_loaded_mono (fs : FileSystem) (p : WebPanel) (op : Op)
    (h : p.loaded = true) : (step fs p op).1.loaded = true := by
  cases op with
  | showOp pf => exact showPanel_loaded fs p pf
  | resolveLoadOp => exact resolveLoad_loaded fs p
  | closeOp => rw [show (step fs p Op.closeOp).1 = p from close_fst p]; exact h
  | postMessageOp m =>
    rw [show (step fs p (Op.postMessageOp m)).1 = p from postMessage_fst p m]
    exact h
  | updateCwdOp c =>
    rw [show (step fs p (Op.updateCwdOp c)).1 = p from
      congrArg Prod.fst (updateCwd_eq p c)]
    exact h
  | setTitleOp t =>
    show (setTitle p t).loaded = true
    unfold setTitle
    split <;> simpa
  | hostDisposeOp =>
    show (hostDispose p).1.loaded = true
    unfold hostDispose
    split <;> simpa

theorem checkScriptsCount_append (l1 l2 : List HostEvent) :
    checkScriptsCount (l1 ++ l2) = checkScriptsCount l1 + checkScriptsCount l2 := by
  simp [checkScriptsCount, List.filter_append]

theorem resolveLoad_count_of_loaded (fs : FileSystem) (p : WebPanel)
    (h : p.loaded = true) : checkScriptsCount (resolveLoad fs p).2 = 0 := by
  unfold resolveLoad
  rw [h]
  rfl

theorem load_count_cases (fs : FileSystem) (p : WebPanel) :
    checkScriptsCount (load fs p).2 = 0 ∨
    checkScriptsCount (load fs p).2 = 1 := by
  cases hp : p.panel with
  | none => left; simp [load, hp, checkScriptsCount]
  | some pan =>
    right
    by_cases hc : ((p.options.scripts.map fs).all fun b => b == true) = true
    · simp only [load, hp, hc, if_true]
      rfl
    · have hcf : ((p.options.scripts.map fs).all fun b => b == true) = false := by
        rwa [Bool.not_eq_true] at hc
      simp only [load, hp, hcf, Bool.false_eq_true, if_false]
      rfl

theorem step_count_of_loaded (fs : FileSystem) (p : WebPanel) (op : Op)
    (h : p.loaded = true) : checkScriptsCount (step fs p op).2 = 0 := by
  cases op with
  | showOp pf =>
    show checkScriptsCount (showPanel fs p pf).2 = 0
    rw [showPanel_trace, checkScriptsCount_append,
      resolveLoad_count_of_loaded fs p h]
    cases hpan : (resolveLoad fs p).1.panel <;> rfl
  | resolveLoadOp => exact resolveLoad_count_of_loaded fs p h
  | closeOp =>
    show checkScriptsCount (close p).2 = 0
    unfold close
    split <;> rfl
  | postMessageOp m =>
    show checkScriptsCount (postMessage p m).2 = 0
    unfold postMessage
    split <;> rfl
  | updateCwdOp c =>
    show checkScriptsCount (updateCwd p c).2 = 0
    unfold updateCwd
    split <;> rfl
  | setTitleOp t => rfl
  | hostDisposeOp =>
    show checkScriptsCount (hostDispose p).2 = 0
    unfold hostDispose
    split <;> rfl

theorem step_count_disj (fs : FileSystem) (p : WebPanel) (op : Op) :
    checkScriptsCount (step fs p op).2 = 0 ∨
    (checkScriptsCount (step fs p op).2 = 1 ∧ (step fs p op).1.loaded = true) := by
  by_cases h : p.loaded = true
  · exact Or.inl (step_count_of_loaded fs p op h)
  · have hl : p.loaded = false := by rwa [Bool.not_eq_true] at h
    cases op with
    | showOp pf =>
      have htr : checkScriptsCount (showPanel fs p pf).2 =
          checkScriptsCount (resolveLoad fs p).2 := by
        rw [showPanel_trace, checkScriptsCount_append]
        cases hpan : (resolveLoad fs p).1.panel <;>
          simp [checkScriptsCount, isCheckScripts]
      have hres : checkScriptsCount (resolveLoad fs p).2 =
          checkScriptsCount (load fs p).2 := by
        unfold resolveLoad
        rw [hl]
        rfl
      rcases load_count_cases fs p with h0 | h1
      · exact Or.inl (by
          show checkScriptsCount (showPanel fs p pf).2 = 0
          rw [htr, hres, h0])
      · refine Or.inr ⟨?_, showPanel_loaded fs p pf⟩
        show checkScriptsCount (showPanel fs p pf).2 = 1
        rw [htr, hres, h1]
    | resolveLoadOp =>
      have hres : checkScriptsCount (resolveLoad fs p).2 =
          checkScriptsCount (load fs p).2 := by
        unfold resolveLoad
        rw [hl]
        rfl
      rcases load_count_cases fs p with h0 | h1
      · exact Or.inl (by
          show checkScriptsCount (resolveLoad fs p).2 = 0
          rw [hres, h0])
      · refine Or.inr ⟨?_, resolveLoad_loaded fs p⟩
        show checkScriptsCount (resolveLoad fs p).2 = 1
        rw [hres, h1]
    | closeOp =>
      left
      show checkScriptsCount (close p).2 = 0
      unfold close
      split <;> rfl
    | postMessageOp m =>
      left
      show checkScriptsCount (postMessage p m).2 = 0
      unfold postMessage
      split <;> rfl
    | updateCwdOp c =>
      left
      show checkScriptsCount (updateCwd p c).2 = 0
      unfold updateCwd
      split <;> rfl
    | setTitleOp t => exact Or.inl rfl
    | hostDisposeOp =>
      left
      show checkScriptsCount (hostDispose p).2 = 0
      unfold hostDispose
      split <;> rfl

theorem run_count_zero_of_loaded (fs : FileSystem) (ops : List Op)
    (p : WebPanel) (h : p.loaded = true) :
    checkScriptsCount (run fs p ops).2 = 0 := by
  induction ops generalizing p with
  | nil => rfl
  | cons op ops ih =>
    show checkScriptsCount ((step fs p op).2 ++ (run fs (step fs p op).1 ops).2) = 0
    rw [checkScriptsCount_append, step_count_of_loaded fs p op h,
      ih _ (step_loaded_mono fs p op h)]

theorem run_count_le_one (fs : FileSystem) (ops : List Op) (p : WebPanel) :
    checkScriptsCount (run fs p ops).2 ≤ 1 := by
  induction ops generalizing p with
  | nil => exact Nat.zero_le 1
  | cons op ops ih =>
    show checkScriptsCount ((step fs p op).2 ++ (run fs (step fs p op).1 ops).2) ≤ 1
    rw [checkScriptsCount_append]
    rcases step_count_disj fs p op with h0 | ⟨h1, hload⟩
    · rw [h0]
      simpa using ih (step fs p op).1
    · rw [h1, run_count_zero_of_loaded fs ops _ hload]

/-- C7: the load body is run at most once in any whole execution (the
script-existence check occurs at most once in the event trace of any
operation sequence), no operation re-runs it after the load promise has
resolved, and `show` always awaits that same single promise, leaving it
resolved. -/
theorem loadPromise_resolved_once (fs : FileSystem) (p q : WebPanel)
    (ops : List Op) (op : Op) (pf : Bool) :
    checkScriptsCount (run fs p ops).2 ≤ 1 ∧
    (q.loaded = true → checkScriptsCount (step fs q op).2 = 0) ∧
    ((showPanel fs q pf).1).loaded = true :=
  ⟨run_count_le_one fs ops p,
   fun h => step_count_of_loaded fs q op h,
   showPanel_loaded fs q pf⟩

/-- Witness for C7 on a concrete run with two shows and a redundant
resolution step. -/
theorem loadPromise_resolved_once_witness :
    checkScriptsCount (run fsAll pX [Op.showOp true, Op.showOp false,
      Op.resolveLoadOp, Op.closeOp]).2 ≤ 1 ∧
    (pDisposedX.loaded = true →
      checkScriptsCount (step fsAll pDisposedX (Op.showOp true)).2 = 0) ∧
    ((showPanel fsAll pDisposedX true).1).loaded = true :=
  loadPromise_resolved_once fsAll pX pDisposedX
    [Op.showOp true, Op.showOp false, Op.resolveLoadOp, Op.closeOp]
    (Op.showOp true) true

-- String reassociation facts for the server HTML
theorem localhost_merge (x : String) :
    "http://localhost:" ++ ("9890" ++ ("/" ++ x)) = "http://localhost:9890/" ++ x := by
  rw [← String.append_assoc, ← String.append_assoc]
  congr 1

theorem toString_RemappedPort : toString RemappedPort = "9890" := by decide

/-- C8: the randomly generated panel identifier influences the output only
in serve-mode: replacing only the id leaves both the assigned HTML and the
event trace of the load step unchanged when `startHttpServer` is false,
while the server HTML factors as a prefix independent of the id, then the
literal loopback URL, then the id as its path segment, then a query string
also independent of the id. -/
theorem id_only_influences_loopback_path (fs : FileSystem) (p : WebPanel)
    (newId : String) (wv : Webview) (idv : String) (tk : Option String)
    (o : IWebPanelOptions) (hserve : p.options.startHttpServer = false) :
    (panelHtml (load fs { p with id := newId }).1 =
        panelHtml (load fs p).1 ∧
      (load fs { p with id := newId }).2 = (load fs p).2) ∧
    generateServerReactHtml wv idv tk o =
      serverHtmlPre wv o ++
        ("http://localhost:9890/" ++ (idv ++ serverHtmlQuery tk o)) := by
  constructor
  · cases hp : p.panel with
    | none =>
      constructor <;> simp [load, hp, panelHtml]
    | some pan =>
      by_cases hc : ((p.options.scripts.map fs).all fun b => b == true) = true
      · constructor <;>
          simp only [load, hp, hc, if_true, hserve, Bool.false_eq_true,
            if_false, panelHtml, Option.map_some']
      · have hcf : ((p.options.scripts.map fs).all fun b => b == true) = false := by
          rwa [Bool.not_eq_true] at hc
        constructor <;>
          simp only [load, hp, hcf, Bool.false_eq_true, if_false, panelHtml,
            Option.map_some']
  · simp only [generateServerReactHtml, serverHtmlPre, serverHtmlQuery,
      String.append_assoc, toString_RemappedPort]
    rw [localhost_merge]

/-- Witness for C8 at concrete ids and options. -/
theorem id_only_influences_loopback_path_witness :
    (panelHtml (load fsAll { pX with id := "otherid" }).1 =
        panelHtml (load fsAll pX).1 ∧
      (load fsAll { pX with id := "otherid" }).2 = (load fsAll pX).2) ∧
    generateServerReactHtml wvX "panelid" (some "tok") optServX =
      serverHtmlPre wvX optServX ++
        ("http://localhost:9890/" ++
          ("panelid" ++ serverHtmlQuery (some "tok") optServX)) :=
  id_only_influences_loopback_path fsAll pX "otherid" wvX "panelid"
    (some "tok") optServX rfl

-- First-occurrence replacement lemmas
theorem jsReplaceFirst_no_occurrence (c : Char) (a : List Char) (h : c ∉ a) :
    jsReplaceFirst c [] a = a := by
  induction a with
  | nil => rfl
  | cons x xs ih =>
    have hx : x ≠ c := fun hh => h (hh ▸ List.mem_cons_self x xs)
    simp only [jsReplaceFirst, if_neg hx]
    rw [ih fun hm => h (List.mem_cons_of_mem _ hm)]

theorem jsReplaceFirst_removes_first (c : Char) (a b : List Char) (h : c ∉ a) :
    jsReplaceFirst c [] (a ++ c :: b) = a ++ b := by
  induction a with
  | nil => simp [jsReplaceFirst]
  | cons x xs ih =>
    have hx : x ≠ c := fun hh => h (hh ▸ List.mem_cons_self x xs)
    simp only [List.cons_append, jsReplaceFirst, if_neg hx, List.append_eq]
    rw [ih fun hm => h (List.mem_cons_of_mem _ hm)]

/-- C10: the view-type identifier passed to `window.createWebviewPanel` is
the lowercased title with only the first occurrence of a space removed: if
the lowercase title splits as `a`, a space, `b` with no space in `a`, the
view type is `a ++ b`, and any space of `b` (a second or later space of the
title) is preserved in the identifier. -/
theorem viewType_removes_only_first_space (port : Option Nat)
    (options : IWebPanelOptions) (a b : List Char)
    (h : (jsToLowerCase options.title).data = a ++ ' ' :: b) (ha : ' ' ∉ a) :
    ((createWebviewPanelArgs port options).viewType).data = a ++ b ∧
    (' ' ∈ b → ' ' ∈ ((createWebviewPanelArgs port options).viewType).data) := by
  have key : ((createWebviewPanelArgs port options).viewType).data =
      jsReplaceFirst ' ' [] (jsToLowerCase options.title).data := rfl
  rw [key, h, jsReplaceFirst_removes_first ' ' a b ha]
  exact ⟨rfl, fun hb => List.mem_append_right a hb⟩

/-- Witness for C10 on a title with two spaces: only the first is removed. -/
theorem viewType_removes_only_first_space_witness :
    ((createWebviewPanelArgs none optTwoSpacesX).viewType).data =
      "my".data ++ "web panel".data ∧
    (' ' ∈ "web panel".data →
      ' ' ∈ ((createWebviewPanelArgs none optTwoSpacesX).viewType).data) :=
  viewType_removes_only_first_space none optTwoSpacesX "my".data
    "web panel".data (by decide) (by decide)

end WebPanels
